import Mathlib

/-!
# Verification of the CONTROL hands-free activation front-end

Shallow embedding of `src/app.js`: the activation state machine, the
cooldown gate, the speech coordinator and the frame-differencing gesture
detector.  The browser event loop (speech-recognition callbacks,
`requestAnimationFrame` frames, `setTimeout` timers) is modelled as an
explicit stream of events consumed by a step function over the mutable
module-level state.  DOM writes (`statusEl`, `waveIndicator`,
`commandList`, button labels) and `console.*` calls are not part of the
modelled state; the user-visible `log()` function, speech-synthesis
dispatch, `recognition.start()` calls, timer scheduling and command-router
invocations are recorded as an ordered list of `Action`s emitted by each
synchronous callback body.
-/

namespace ControlAssistant

/-- `ACTIVATION_COOLDOWN` from app.js line 21 (5 seconds between activations). -/
def ACTIVATION_COOLDOWN : Int := 5000

/-- `MOTION_THRESHOLD` from app.js line 175 (need significant motion). -/
def MOTION_THRESHOLD : Int := 3000

/-- `STABLE_THRESHOLD` from app.js line 176 (palm can be mostly still). -/
def STABLE_THRESHOLD : Int := 400

/-- The `STATE` enum of app.js lines 12-17. -/
inductive STATE where
  | UNINITIALIZED
  | IDLE
  | ACTIVATED
  | LISTENING_FOR_COMMAND
deriving DecidableEq

/-- The module-level mutable state of app.js, plus explicit bookkeeping for
the `setTimeout` timers the code creates (each `setTimeout` call adds one
pending timer; a timer event can only fire while its pending count is
positive, mirroring that a timer callback runs exactly once per call).
`pendingGestureResets` records, for each pending 3-second gesture-reset
timer, the `motionLevel` value captured by its closure (app.js 240-248).
`speakQueueCount` counts utterances handed to `speechSynthesis.speak` whose
`onend`/`onerror` has not yet fired. -/
structure AppState where
  currentState : STATE
  lastActivationTime : Int
  userName : String
  isRecognitionActive : Bool
  recognitionPaused : Bool
  palmDetectionActive : Bool
  stableFrameCount : Nat
  hasLastFrame : Bool
  pendingAutoAdvance : Nat
  pendingRestarts : Nat
  pendingGestureResets : List Int
  speakQueueCount : Nat
  pendingUnpause : Nat
deriving DecidableEq

/-- Observable actions performed by the synchronous callback bodies. -/
inductive Action where
  | log (text : String)
  | speakOut (text : String)
  | setState (st : STATE)
  | routerCall (text : String)
  | recStart
  | scheduleAutoAdvance
  | scheduleUnpause
  | scheduleRestart
  | scheduleGestureReset (captured : Int)
deriving DecidableEq

/-- External events driving the event loop: the start-button click, the
speech-recognition callbacks (`onstart`, `onresult`, `onerror`, `onend`),
animation-frame callbacks carrying the computed motion level, utterance
`onend`/`onerror`, and the bodies of the four kinds of `setTimeout` timers
the code schedules. -/
inductive Event where
  | startClick (nameInput : Option String)
  | recStarted
  | result (now : Int) (transcript : String)
  | recError (kind : String)
  | recEnded
  | restartTimer
  | frame (now : Int) (motionLevel : Int)
  | autoAdvanceTimer
  | gestureResetTimer (captured : Int)
  | utterEnd
  | utterError
  | unpauseTimer
deriving DecidableEq

/-- Substring test on lists, used to model JavaScript `String.includes`. -/
def hasInfixList (pat : List Char) : List Char → Bool
  | [] => pat.isEmpty
  | c :: rest => pat.isPrefixOf (c :: rest) || hasInfixList pat rest

/-- JavaScript `text.includes(pat)`. -/
def jsIncludes (text pat : String) : Bool :=
  hasInfixList pat.data text.data

/-- JavaScript `String.toLowerCase` (ASCII-faithful). -/
def jsToLowerCase (s : String) : String :=
  ⟨s.data.map Char.toLower⟩

/-- JavaScript `String.trim`: strip leading and trailing whitespace. -/
def jsTrim (s : String) : String :=
  ⟨((s.data.dropWhile Char.isWhitespace).reverse.dropWhile Char.isWhitespace).reverse⟩

/-- `speak(text)` (app.js 32-55): synchronously sets `recognitionPaused :=
true` and then hands the utterance to the synthesis service; the
utterance's `onend`/`onerror` (modelled by `utterEndFire`/`utterErrorFire`)
later schedule the 3-second unpause timer. -/
def speak (text : String) (s : AppState) : AppState × List Action :=
  ({ s with recognitionPaused := true, speakQueueCount := s.speakQueueCount + 1 },
   [Action.speakOut text])

/-- `transitionTo(newState)` (app.js 256-277): commits the new state; the
`switch` only updates the DOM, recorded as the `setState` action. -/
def transitionTo (newState : STATE) (s : AppState) : AppState × List Action :=
  ({ s with currentState := newState }, [Action.setState newState])

/-- `activate(source)` (app.js 279-306): cooldown gate, IDLE guard, commit
of `lastActivationTime`, transition to ACTIVATED, greeting, and the
2.5-second auto-advance timer.  `now` is the value of `Date.now()`. -/
def activate (source : String) (now : Int) (s : AppState) : AppState × List Action :=
  if now - s.lastActivationTime < ACTIVATION_COOLDOWN then
    (s, [Action.log "Activation blocked (cooldown)"])
  else if s.currentState ≠ STATE.IDLE then
    (s, [])
  else
    let s1 : AppState := { s with lastActivationTime := now }
    let t := transitionTo STATE.ACTIVATED s1
    let greeting : String :=
      if s1.userName = "" then "Yes, how may I help you?"
      else "Yes " ++ s1.userName ++ ", how may I help you?"
    let sp := speak greeting t.1
    ({ sp.1 with pendingAutoAdvance := sp.1.pendingAutoAdvance + 1 },
     Action.log ("Activated by " ++ source) :: t.2 ++ sp.2 ++ [Action.scheduleAutoAdvance])

/-- `recognition.onresult` (app.js 79-102): drop while paused, otherwise
lower-case and trim the transcript, run wake-word detection in IDLE, or
treat the utterance as a command in LISTENING_FOR_COMMAND. -/
def onresult (now : Int) (transcript : String) (s : AppState) : AppState × List Action :=
  if s.recognitionPaused then (s, [])
  else
    let text := jsTrim (jsToLowerCase transcript)
    if s.currentState = STATE.IDLE ∧ jsIncludes text "control" = true then
      let r := activate "voice" now s
      (r.1, Action.log ("Heard: \"" ++ text ++ "\"") :: r.2)
    else if s.currentState = STATE.LISTENING_FOR_COMMAND then
      let t := transitionTo STATE.IDLE s
      (t.1, Action.log ("Heard: \"" ++ text ++ "\"") :: t.2 ++ [Action.routerCall text])
    else
      (s, [Action.log ("Heard: \"" ++ text ++ "\"")])

/-- `restartRecognition` (app.js 139-150): bail out if the session is
active, otherwise schedule the 100 ms restart timer (`restartTimerFire`). -/
def restartRecognition (s : AppState) : AppState × List Action :=
  if s.isRecognitionActive then (s, [])
  else ({ s with pendingRestarts := s.pendingRestarts + 1 }, [Action.scheduleRestart])

/-- Body of the 100 ms timer scheduled by `restartRecognition`
(app.js 141-149): call `recognition.start()` unless torn down or already
active. -/
def restartTimerFire (s : AppState) : AppState × List Action :=
  if s.pendingRestarts = 0 then (s, [])
  else
    let s1 : AppState := { s with pendingRestarts := s.pendingRestarts - 1 }
    if s1.currentState ≠ STATE.UNINITIALIZED ∧ s1.isRecognitionActive = false then
      (s1, [Action.recStart])
    else (s1, [])

/-- `recognition.onerror` (app.js 104-121): `not-allowed` marks the session
inactive with no restart from this handler; every other error kind restarts. -/
def onerror (kind : String) (s : AppState) : AppState × List Action :=
  if kind = "not-allowed" then
    ({ s with isRecognitionActive := false }, [Action.log "Microphone permission denied"])
  else if kind = "no-speech" ∨ kind = "aborted" then
    restartRecognition s
  else
    let r := restartRecognition s
    (r.1, Action.log ("Voice error: " ++ kind) :: r.2)

/-- `recognition.onend` (app.js 123-129): mark inactive, then auto-restart
whenever the machine is still initialized. -/
def onend (s : AppState) : AppState × List Action :=
  let s1 : AppState := { s with isRecognitionActive := false }
  if s1.currentState ≠ STATE.UNINITIALIZED then restartRecognition s1
  else (s1, [])

/-- The hysteresis chain of `detectMotion` (app.js 195-237), evaluated for
one frame with computed `motionLevel` while in IDLE with a previous frame
buffered.  Note the exact `if`/`else if` shape of the source: the first
branch fires for every `motionLevel > MOTION_THRESHOLD` and only arms when
not yet armed; the final armed-and-big-motion branch is therefore reachable
only when `motionLevel = MOTION_THRESHOLD` exactly. -/
def detectMotionClassify (now : Int) (motionLevel : Int) (s : AppState) :
    AppState × List Action :=
  let motionLog : List Action :=
    if 1000 < motionLevel then
      [Action.log ("Motion: " ++ toString motionLevel ++ "k (need 3000k)")]
    else []
  if MOTION_THRESHOLD < motionLevel then
    if s.palmDetectionActive = false then
      ({ s with palmDetectionActive := true, stableFrameCount := 0 },
       motionLog ++ [Action.log "Palm detected - hold still..."])
    else (s, motionLog)
  else if s.palmDetectionActive = true ∧ motionLevel < STABLE_THRESHOLD then
    let c := s.stableFrameCount + 1
    let holdLog : List Action :=
      if c % 5 = 0 then [Action.log ("Holding... " ++ toString c ++ "/20")] else []
    if 20 ≤ c then
      let r := activate "palm" now { s with stableFrameCount := c }
      ({ r.1 with palmDetectionActive := false, stableFrameCount := 0 },
       motionLog ++ holdLog ++ [Action.log "✓ Palm activated!"] ++ r.2)
    else ({ s with stableFrameCount := c }, motionLog ++ holdLog)
  else if s.palmDetectionActive = true ∧ STABLE_THRESHOLD ≤ motionLevel ∧
      motionLevel < MOTION_THRESHOLD then
    if 0 < s.stableFrameCount then
      ({ s with stableFrameCount := 0 }, motionLog ++ [Action.log "Too much movement - hold still"])
    else (s, motionLog)
  else if s.palmDetectionActive = true ∧ MOTION_THRESHOLD ≤ motionLevel then
    ({ s with stableFrameCount := 0 }, motionLog ++ [Action.log "Palm detected - hold still..."])
  else (s, motionLog)

/-- `detectMotion` for one animation frame (app.js 178-253): return at once
when UNINITIALIZED (the frame is not even buffered), classify only when a
previous frame exists and the machine is IDLE, then — with the
post-classification detector state — schedule the 3-second reset timer when
armed and `motionLevel < 100`, capturing this frame's `motionLevel` in the
timer closure.  In every non-UNINITIALIZED case the frame is buffered
(`hasLastFrame := true`). -/
def detectMotion (now : Int) (motionLevel : Int) (s : AppState) : AppState × List Action :=
  if s.currentState = STATE.UNINITIALIZED then (s, [])
  else if s.hasLastFrame = true ∧ s.currentState = STATE.IDLE then
    let r := detectMotionClassify now motionLevel s
    let r2 : AppState × List Action :=
      if r.1.palmDetectionActive = true ∧ motionLevel < 100 then
        ({ r.1 with pendingGestureResets := r.1.pendingGestureResets ++ [motionLevel] },
         r.2 ++ [Action.scheduleGestureReset motionLevel])
      else r
    ({ r2.1 with hasLastFrame := true }, r2.2)
  else
    ({ s with hasLastFrame := true }, [])

/-- Body of the 2.5-second timer scheduled by `activate` (app.js 301-305):
advance to LISTENING_FOR_COMMAND only if still ACTIVATED. -/
def autoAdvanceFire (s : AppState) : AppState × List Action :=
  if s.pendingAutoAdvance = 0 then (s, [])
  else
    let s1 : AppState := { s with pendingAutoAdvance := s.pendingAutoAdvance - 1 }
    if s1.currentState = STATE.ACTIVATED then
      transitionTo STATE.LISTENING_FOR_COMMAND s1
    else (s1, [])

/-- Body of the 3-second gesture-reset timer (app.js 241-247): it re-reads
`palmDetectionActive` but the `motionLevel` it tests is the value captured
by its closure at scheduling time. -/
def gestureResetFire (captured : Int) (s : AppState) : AppState × List Action :=
  if captured ∈ s.pendingGestureResets then
    let s1 : AppState := { s with pendingGestureResets := s.pendingGestureResets.erase captured }
    if s1.palmDetectionActive = true ∧ captured < 100 then
      ({ s1 with palmDetectionActive := false, stableFrameCount := 0 }, [])
    else (s1, [])
  else (s, [])

/-- `utter.onend` (app.js 40-45): schedule the 3-second unpause timer. -/
def utterEndFire (s : AppState) : AppState × List Action :=
  if s.speakQueueCount = 0 then (s, [])
  else
    ({ s with
        speakQueueCount := s.speakQueueCount - 1
        pendingUnpause := s.pendingUnpause + 1 },
     [Action.scheduleUnpause])

/-- `utter.onerror` (app.js 47-52): identical to `onend` for unpause timing. -/
def utterErrorFire (s : AppState) : AppState × List Action :=
  if s.speakQueueCount = 0 then (s, [])
  else
    ({ s with
        speakQueueCount := s.speakQueueCount - 1
        pendingUnpause := s.pendingUnpause + 1 },
     [Action.scheduleUnpause])

/-- Body of the 3-second unpause timer (app.js 42-44 and 49-51). -/
def unpauseFire (s : AppState) : AppState × List Action :=
  if s.pendingUnpause = 0 then (s, [])
  else ({ s with pendingUnpause := s.pendingUnpause - 1, recognitionPaused := false }, [])

/-- `startBtn.onclick` (app.js 534-569): immediate return unless
UNINITIALIZED; otherwise capture the name, start camera and speech
(external; the `recognition.start()` call is the `recStart` action),
transition to IDLE and greet.  The camera/speech services signal back via
their own events (`recStarted`, `frame`, ...). -/
def startClickHandler (nameInput : Option String) (s : AppState) : AppState × List Action :=
  if s.currentState ≠ STATE.UNINITIALIZED then (s, [])
  else
    let name : String :=
      match nameInput with
      | some n => if jsTrim n ≠ "" then jsTrim n else ""
      | none => ""
    let s1 : AppState := { s with userName := name }
    let t := transitionTo STATE.IDLE s1
    if name ≠ "" then
      let sp := speak ("Welcome " ++ name ++ ". Say control or show your palm to activate me.") t.1
      (sp.1, Action.log "Starting system..." :: Action.recStart :: t.2 ++
        [Action.log ("System online - Welcome " ++ name ++ "!")] ++ sp.2)
    else
      (t.1, Action.log "Starting system..." :: Action.recStart :: t.2 ++
        [Action.log "System online - Say control or show palm"])

/-- One synchronous callback dispatch of the event loop. -/
def step (s : AppState) : Event → AppState × List Action
  | Event.startClick n => startClickHandler n s
  | Event.recStarted => ({ s with isRecognitionActive := true }, [Action.log "Voice recognition active"])
  | Event.result now tr => onresult now tr s
  | Event.recError k => onerror k s
  | Event.recEnded => onend s
  | Event.restartTimer => restartTimerFire s
  | Event.frame now m => detectMotion now m s
  | Event.autoAdvanceTimer => autoAdvanceFire s
  | Event.gestureResetTimer c => gestureResetFire c s
  | Event.utterEnd => utterEndFire s
  | Event.utterError => utterErrorFire s
  | Event.unpauseTimer => unpauseFire s

/-- Run a whole event sequence, accumulating the emitted actions in order. -/
def run (s : AppState) : List Event → AppState × List Action
  | [] => (s, [])
  | e :: es =>
    ((run (step s e).1 es).1, (step s e).2 ++ (run (step s e).1 es).2)

/-- The fixed grace period of `speak` (app.js 42 and 49): 3 seconds between
an utterance's completion (or failure) and the corresponding
`recognitionPaused = false`. -/
def GRACE_PERIOD : Int := 3000

/-- Timed refinement of the `speak` unmute path (app.js 32-55), used for the
grace-period timing claims: the `paused` flag together with the fire times
of every scheduled-but-unfired 3-second unpause timer.  Each utterance end
or error creates its own independent `setTimeout`; the code stores no timer
handle and never clears one. -/
structure SpeakTimeline where
  recognitionPaused : Bool
  unpauseTimers : List Int
deriving DecidableEq

/-- Events of the timed speak model: a `speak(text)` call, an utterance
completion or output failure at clock time `now` (which schedules the
unpause at `now + GRACE_PERIOD`), and the event-loop reaching clock time
`now` and firing every timer that has come due. -/
inductive SpeakEvent where
  | speakCall (text : String)
  | utterEnd (now : Int)
  | utterError (now : Int)
  | timersDue (now : Int)
deriving DecidableEq

/-- One step of the timed speak model. -/
def speakTimelineStep (s : SpeakTimeline) : SpeakEvent → SpeakTimeline
  | SpeakEvent.speakCall _ => { s with recognitionPaused := true }
  | SpeakEvent.utterEnd now =>
      { s with unpauseTimers := s.unpauseTimers ++ [now + GRACE_PERIOD] }
  | SpeakEvent.utterError now =>
      { s with unpauseTimers := s.unpauseTimers ++ [now + GRACE_PERIOD] }
  | SpeakEvent.timersDue now =>
      if (s.unpauseTimers.any fun t => decide (t ≤ now)) = true then
        { recognitionPaused := false
          unpauseTimers := s.unpauseTimers.filter fun t => decide (now < t) }
      else s

/-- Run a sequence of timed speak events. -/
def speakTimelineRun (s : SpeakTimeline) : List SpeakEvent → SpeakTimeline
  | [] => s
  | e :: es => speakTimelineRun (speakTimelineStep s e) es

/-- The module-level initial state (app.js 19-30, 172-174). -/
def initState : AppState :=
  { currentState := STATE.UNINITIALIZED
    lastActivationTime := 0
    userName := ""
    isRecognitionActive := false
    recognitionPaused := false
    palmDetectionActive := false
    stableFrameCount := 0
    hasLastFrame := false
    pendingAutoAdvance := 0
    pendingRestarts := 0
    pendingGestureResets := []
    speakQueueCount := 0
    pendingUnpause := 0 }

/-- An event is an accepted activation trigger at state `s`: a wake-word
utterance received while not paused, in IDLE, whose lower-cased trimmed
text contains the wake token, with the cooldown elapsed — or a gesture
frame that completes the 20-stable-frame confirmation while armed in IDLE
with the cooldown elapsed. -/
def isAcceptedActivation (s : AppState) : Event → Prop
  | Event.result now transcript =>
      s.recognitionPaused = false ∧ s.currentState = STATE.IDLE ∧
      jsIncludes (jsTrim (jsToLowerCase transcript)) "control" = true ∧
      ACTIVATION_COOLDOWN ≤ now - s.lastActivationTime
  | Event.frame now motionLevel =>
      s.currentState = STATE.IDLE ∧ s.hasLastFrame = true ∧
      s.palmDetectionActive = true ∧ motionLevel < STABLE_THRESHOLD ∧
      20 ≤ s.stableFrameCount + 1 ∧
      ACTIVATION_COOLDOWN ≤ now - s.lastActivationTime
  | _ => False

/-- A started system sitting in IDLE with a buffered camera frame. -/
def gestureIdleState : AppState :=
  { initState with currentState := STATE.IDLE, hasLastFrame := true }

/-- A started system in IDLE with an active recognition session. -/
def idleActiveState : AppState :=
  { initState with currentState := STATE.IDLE, isRecognitionActive := true }

/-- A started system in IDLE whose recognition is paused (the assistant
has just spoken). -/
def pausedIdleState : AppState :=
  { initState with currentState := STATE.IDLE, recognitionPaused := true }

/-- A started system waiting for a command in LISTENING_FOR_COMMAND. -/
def listeningState : AppState :=
  { initState with
      currentState := STATE.LISTENING_FOR_COMMAND
      lastActivationTime := 100000
      isRecognitionActive := true
      hasLastFrame := true }

/-- The claim C3 frame sequence: [motion=4000], [motion=50]x10,
[motion=4000], [motion=50]x20, at animation-frame cadence (~33 ms). -/
def c3Frames : List Event :=
  Event.frame 100000 4000 ::
  (((List.range 10).map fun i => Event.frame (100033 + 33 * (i : Int)) 50) ++
   (Event.frame 100400 4000 ::
    ((List.range 20).map fun i => Event.frame (100433 + 33 * (i : Int)) 50)))

/-- The claim C7 scenario: arm at t=100000; one near-zero frame at t=100033
schedules the 3-second reset timer (closure captures motionLevel = 50);
renewed big motion on the following frames; the timer fires ~3 s later. -/
def c7Events : List Event :=
  [Event.frame 100000 4000, Event.frame 100033 50,
   Event.frame 100100 4000, Event.frame 100200 4000, Event.frame 100300 4000,
   Event.gestureResetTimer 50]

/-- The claim C6 counterexample timeline: two overlapping `speak` calls;
the first utterance completes at t=2000, the second at t=4000; the event
loop reaches t=5000 and fires the timers that are due. -/
def c6Events : List SpeakEvent :=
  [SpeakEvent.speakCall "A", SpeakEvent.speakCall "B",
   SpeakEvent.utterEnd 2000, SpeakEvent.utterEnd 4000,
   SpeakEvent.timersDue 5000]

/-- Predicate picking out command-router invocations among actions. -/
def isRouterCall : Action → Bool
  | Action.routerCall _ => true
  | _ => false

/-- Predicate picking out diagnostic `log()` output among actions. -/
def isLogAction : Action → Bool
  | Action.log _ => true
  | _ => false

/-! ## Basic lemmas about the embedded operations -/

theorem activate_fst (src : String) (now : Int) (s : AppState) :
    (activate src now s).1 =
      if now - s.lastActivationTime < ACTIVATION_COOLDOWN then s
      else if s.currentState ≠ STATE.IDLE then s
      else { s with
              lastActivationTime := now
              currentState := STATE.ACTIVATED
              recognitionPaused := true
              speakQueueCount := s.speakQueueCount + 1
              pendingAutoAdvance := s.pendingAutoAdvance + 1 } := by
  unfold activate transitionTo speak
  split_ifs <;> rfl

theorem activate_currentState_cases (src : String) (now : Int) (s : AppState) :
    (activate src now s).1.currentState = s.currentState ∨
      (activate src now s).1.currentState = STATE.ACTIVATED := by
  rw [activate_fst]
  split_ifs <;> simp

theorem onresult_fst (now : Int) (transcript : String) (s : AppState) :
    (onresult now transcript s).1 =
      if s.recognitionPaused then s
      else if s.currentState = STATE.IDLE ∧
          jsIncludes (jsTrim (jsToLowerCase transcript)) "control" = true then
        (activate "voice" now s).1
      else if s.currentState = STATE.LISTENING_FOR_COMMAND then
        { s with currentState := STATE.IDLE }
      else s := by
  simp only [onresult, transitionTo]
  split_ifs <;> rfl

theorem onresult_currentState_cases (now : Int) (transcript : String) (s : AppState) :
    (onresult now transcript s).1.currentState = s.currentState ∨
      (onresult now transcript s).1.currentState = STATE.ACTIVATED ∨
      (onresult now transcript s).1.currentState = STATE.IDLE := by
  rw [onresult_fst]
  split_ifs with h1 h2 h3
  · exact Or.inl rfl
  · rcases activate_currentState_cases "voice" now s with h | h
    · exact Or.inl h
    · exact Or.inr (Or.inl h)
  · exact Or.inr (Or.inr rfl)
  · exact Or.inl rfl

theorem onerror_currentState (kind : String) (s : AppState) :
    (onerror kind s).1.currentState = s.currentState := by
  unfold onerror restartRecognition
  split_ifs <;> rfl

theorem onend_currentState (s : AppState) :
    (onend s).1.currentState = s.currentState := by
  simp only [onend, restartRecognition]
  split_ifs <;> rfl

theorem restartTimerFire_currentState (s : AppState) :
    (restartTimerFire s).1.currentState = s.currentState := by
  simp only [restartTimerFire]
  split_ifs <;> rfl

theorem gestureResetFire_currentState (captured : Int) (s : AppState) :
    (gestureResetFire captured s).1.currentState = s.currentState := by
  simp only [gestureResetFire]
  split_ifs <;> rfl

theorem utterEndFire_currentState (s : AppState) :
    (utterEndFire s).1.currentState = s.currentState := by
  unfold utterEndFire
  split_ifs <;> rfl

theorem utterErrorFire_currentState (s : AppState) :
    (utterErrorFire s).1.currentState = s.currentState := by
  unfold utterErrorFire
  split_ifs <;> rfl

theorem unpauseFire_currentState (s : AppState) :
    (unpauseFire s).1.currentState = s.currentState := by
  unfold unpauseFire
  split_ifs <;> rfl

theorem startClickHandler_currentState_cases (n : Option String) (s : AppState) :
    (startClickHandler n s).1.currentState = s.currentState ∨
      (startClickHandler n s).1.currentState = STATE.IDLE := by
  simp only [startClickHandler, transitionTo, speak]
  split_ifs <;> simp

theorem detectMotionClassify_fst (now motionLevel : Int) (s : AppState) :
    (detectMotionClassify now motionLevel s).1 =
      if MOTION_THRESHOLD < motionLevel then
        (if s.palmDetectionActive = false then
          { s with palmDetectionActive := true, stableFrameCount := 0 }
         else s)
      else if s.palmDetectionActive = true ∧ motionLevel < STABLE_THRESHOLD then
        (if 20 ≤ s.stableFrameCount + 1 then
          { (activate "palm" now { s with stableFrameCount := s.stableFrameCount + 1 }).1 with
              palmDetectionActive := false
              stableFrameCount := 0 }
         else { s with stableFrameCount := s.stableFrameCount + 1 })
      else if s.palmDetectionActive = true ∧ STABLE_THRESHOLD ≤ motionLevel ∧
          motionLevel < MOTION_THRESHOLD then
        (if 0 < s.stableFrameCount then { s with stableFrameCount := 0 } else s)
      else if s.palmDetectionActive = true ∧ MOTION_THRESHOLD ≤ motionLevel then
        { s with stableFrameCount := 0 }
      else s := by
  simp only [detectMotionClassify]
  split_ifs <;> rfl

theorem detectMotionClassify_enters_activated (now motionLevel : Int) (s : AppState)
    (h : (detectMotionClassify now motionLevel s).1.currentState = STATE.ACTIVATED) :
    s.currentState = STATE.ACTIVATED ∨
      (s.palmDetectionActive = true ∧ motionLevel < STABLE_THRESHOLD ∧
       20 ≤ s.stableFrameCount + 1 ∧ s.currentState = STATE.IDLE ∧
       ACTIVATION_COOLDOWN ≤ now - s.lastActivationTime) := by
  rw [detectMotionClassify_fst] at h
  split_ifs at h with h1 h2 h3 h4 h5 h6 h7
  · exact Or.inl (by simpa using h)
  · exact Or.inl h
  · -- the 20-stable-frames confirmation branch
    rw [activate_fst] at h
    split_ifs at h with hc hni
    · exact Or.inl (by simpa using h)
    · exact Or.inl (by simpa using h)
    · right
      have hIdle : s.currentState = STATE.IDLE := by
        simpa using not_not.mp (by simpa using hni)
      have hcool : ACTIVATION_COOLDOWN ≤ now - s.lastActivationTime :=
        not_lt.mp (by simpa using hc)
      exact ⟨h3.1, h3.2, h4, hIdle, hcool⟩
  · exact Or.inl (by simpa using h)
  · exact Or.inl (by simpa using h)
  · exact Or.inl h
  · exact Or.inl (by simpa using h)
  · exact Or.inl h

theorem detectMotion_enters_activated (now motionLevel : Int) (s : AppState)
    (h : (detectMotion now motionLevel s).1.currentState = STATE.ACTIVATED) :
    s.currentState = STATE.ACTIVATED ∨ isAcceptedActivation s (Event.frame now motionLevel) := by
  simp only [detectMotion] at h
  split_ifs at h with h1 h2 h3
  · exact Or.inl h
  · rcases detectMotionClassify_enters_activated now motionLevel s (by simpa using h) with
      h' | ⟨ha, hm, hcnt, hIdle, hcool⟩
    · exact Or.inl h'
    · exact Or.inr ⟨hIdle, h2.1, ha, hm, hcnt, hcool⟩
  · rcases detectMotionClassify_enters_activated now motionLevel s (by simpa using h) with
      h' | ⟨ha, hm, hcnt, hIdle, hcool⟩
    · exact Or.inl h'
    · exact Or.inr ⟨hIdle, h2.1, ha, hm, hcnt, hcool⟩
  · exact Or.inl (by simpa using h)

theorem step_enters_activated (s : AppState) (e : Event)
    (h : (step s e).1.currentState = STATE.ACTIVATED) :
    s.currentState = STATE.ACTIVATED ∨ isAcceptedActivation s e := by
  cases e with
  | startClick n =>
    simp only [step] at h
    rcases startClickHandler_currentState_cases n s with h' | h' <;> rw [h'] at h
    · exact Or.inl h
    · exact absurd h (by decide)
  | recStarted =>
    simp only [step] at h
    exact Or.inl (by simpa using h)
  | result now tr =>
    simp only [step] at h
    rw [onresult_fst] at h
    split_ifs at h with hp hw hl
    · exact Or.inl h
    · rw [activate_fst] at h
      split_ifs at h with hc hni
      · exact Or.inl h
      · exact Or.inl h
      · right
        have hpf : s.recognitionPaused = false := by
          simpa using hp
        exact ⟨hpf, hw.1, hw.2, not_lt.mp hc⟩
    · exact Or.inl h
  | recError k =>
    simp only [step] at h
    rw [onerror_currentState] at h
    exact Or.inl h
  | recEnded =>
    simp only [step] at h
    rw [onend_currentState] at h
    exact Or.inl h
  | restartTimer =>
    simp only [step] at h
    rw [restartTimerFire_currentState] at h
    exact Or.inl h
  | frame now m =>
    simp only [step] at h
    exact detectMotion_enters_activated now m s h
  | autoAdvanceTimer =>
    simp only [step, autoAdvanceFire] at h
    split_ifs at h with h1 h2
    · exact Or.inl h
    · simp [transitionTo] at h
    · exact Or.inl (by simpa using h)
  | gestureResetTimer c =>
    simp only [step] at h
    rw [gestureResetFire_currentState] at h
    exact Or.inl h
  | utterEnd =>
    simp only [step] at h
    rw [utterEndFire_currentState] at h
    exact Or.inl h
  | utterError =>
    simp only [step] at h
    rw [utterErrorFire_currentState] at h
    exact Or.inl h
  | unpauseTimer =>
    simp only [step] at h
    rw [unpauseFire_currentState] at h
    exact Or.inl h

theorem detectMotionClassify_currentState_cases (now motionLevel : Int) (s : AppState) :
    (detectMotionClassify now motionLevel s).1.currentState = s.currentState ∨
      (detectMotionClassify now motionLevel s).1.currentState = STATE.ACTIVATED := by
  rw [detectMotionClassify_fst]
  split_ifs with g1 g2 g3 g4 g5 g6 g7
  · left; simp
  · left; rfl
  · rcases activate_currentState_cases "palm" now
      { s with stableFrameCount := s.stableFrameCount + 1 } with h | h
    · left; simpa using h
    · right; simpa using h
  · left; simp
  · left; simp
  · left; rfl
  · left; simp
  · left; rfl

theorem detectMotion_currentState_cases (now motionLevel : Int) (s : AppState) :
    (detectMotion now motionLevel s).1.currentState = s.currentState ∨
      (detectMotion now motionLevel s).1.currentState = STATE.ACTIVATED := by
  simp only [detectMotion]
  split_ifs with h1 h2 h3
  · left; rfl
  · rcases detectMotionClassify_currentState_cases now motionLevel s with h | h
    · left; simpa using h
    · right; simpa using h
  · rcases detectMotionClassify_currentState_cases now motionLevel s with h | h
    · left; simpa using h
    · right; simpa using h
  · left; simp

theorem step_enters_listening (s : AppState) (e : Event)
    (h : (step s e).1.currentState = STATE.LISTENING_FOR_COMMAND) :
    s.currentState = STATE.LISTENING_FOR_COMMAND ∨
      (e = Event.autoAdvanceTimer ∧ s.currentState = STATE.ACTIVATED ∧
       0 < s.pendingAutoAdvance) := by
  cases e with
  | startClick n =>
    simp only [step] at h
    rcases startClickHandler_currentState_cases n s with h' | h' <;> rw [h'] at h
    · exact Or.inl h
    · exact absurd h (by decide)
  | recStarted =>
    simp only [step] at h
    exact Or.inl (by simpa using h)
  | result now tr =>
    simp only [step] at h
    rcases onresult_currentState_cases now tr s with h' | h' | h' <;> rw [h'] at h
    · exact Or.inl h
    · exact absurd h (by decide)
    · exact absurd h (by decide)
  | recError k =>
    simp only [step] at h
    rw [onerror_currentState] at h
    exact Or.inl h
  | recEnded =>
    simp only [step] at h
    rw [onend_currentState] at h
    exact Or.inl h
  | restartTimer =>
    simp only [step] at h
    rw [restartTimerFire_currentState] at h
    exact Or.inl h
  | frame now m =>
    simp only [step] at h
    rcases detectMotion_currentState_cases now m s with h' | h' <;> rw [h'] at h
    · exact Or.inl h
    · exact absurd h (by decide)
  | autoAdvanceTimer =>
    simp only [step, autoAdvanceFire] at h
    split_ifs at h with h1 h2
    · exact Or.inl h
    · exact Or.inr ⟨rfl, by simpa using h2, Nat.pos_of_ne_zero h1⟩
    · exact Or.inl (by simpa using h)
  | gestureResetTimer c =>
    simp only [step] at h
    rw [gestureResetFire_currentState] at h
    exact Or.inl h
  | utterEnd =>
    simp only [step] at h
    rw [utterEndFire_currentState] at h
    exact Or.inl h
  | utterError =>
    simp only [step] at h
    rw [utterErrorFire_currentState] at h
    exact Or.inl h
  | unpauseTimer =>
    simp only [step] at h
    rw [unpauseFire_currentState] at h
    exact Or.inl h

theorem run_concat (s : AppState) (es : List Event) (e : Event) :
    (run s (es ++ [e])).1 = (step (run s es).1 e).1 := by
  induction es generalizing s with
  | nil => rfl
  | cons a as ih => simpa [run] using ih (step s a).1

/-! ## Claim theorems -/

/-- C2: for every sequence of events from the initial (UNINITIALIZED)
state, the machine is in ACTIVATED or LISTENING_FOR_COMMAND only as a
result of a wake-word utterance or gesture event accepted while in IDLE
with a passing cooldown check (some such event occurs in the trace), and
it is in LISTENING_FOR_COMMAND only if additionally the trace contains a
firing of the scheduled 2.5-second auto-advance timer at a moment where
the machine was still in ACTIVATED. -/
theorem activated_only_via_accepted_idle_activation (es : List Event)
    (h : (run initState es).1.currentState = STATE.ACTIVATED ∨
         (run initState es).1.currentState = STATE.LISTENING_FOR_COMMAND) :
    (∃ l1 e l2, es = l1 ++ e :: l2 ∧ isAcceptedActivation (run initState l1).1 e) ∧
    ((run initState es).1.currentState = STATE.LISTENING_FOR_COMMAND →
      ∃ l1 l2, es = l1 ++ Event.autoAdvanceTimer :: l2 ∧
        (run initState l1).1.currentState = STATE.ACTIVATED ∧
        0 < (run initState l1).1.pendingAutoAdvance) := by
  induction es using List.reverseRecOn with
  | nil =>
    rcases h with h | h <;> exact absurd h (by decide)
  | append_singleton es e ih =>
    have hcat : (run initState (es ++ [e])).1 = (step (run initState es).1 e).1 :=
      run_concat _ _ _
    by_cases hs : (run initState es).1.currentState = STATE.ACTIVATED ∨
        (run initState es).1.currentState = STATE.LISTENING_FOR_COMMAND
    · obtain ⟨⟨l1, e0, l2, hsp, hacc⟩, hLpart⟩ := ih hs
      constructor
      · exact ⟨l1, e0, l2 ++ [e], by rw [hsp]; simp, hacc⟩
      · intro hL
        rw [hcat] at hL
        rcases step_enters_listening _ e hL with hsl | ⟨heq, hact, hpend⟩
        · obtain ⟨l1x, l2x, hspx, hA, hP⟩ := hLpart hsl
          exact ⟨l1x, l2x ++ [e], by rw [hspx]; simp, hA, hP⟩
        · exact ⟨es, [], by rw [heq], hact, hpend⟩
    · rcases h with hA | hL
      · rw [hcat] at hA
        rcases step_enters_activated _ e hA with h1 | hacc
        · exact absurd (Or.inl h1) hs
        · refine ⟨⟨es, e, [], rfl, hacc⟩, ?_⟩
          intro hL'
          rw [hcat] at hL'
          rw [hA] at hL'
          exact absurd hL' (by decide)
      · rw [hcat] at hL
        rcases step_enters_listening _ e hL with hsl | ⟨heq, hact, hpend⟩
        · exact absurd (Or.inr hsl) hs
        · exact absurd (Or.inl hact) hs

/-- Witness for C2: after the concrete trace "start the system, then hear
the utterance control at t=100000" the machine is in ACTIVATED, and the
theorem yields an accepted activation inside the trace. -/
theorem activated_only_via_accepted_idle_activation_witness :
    ∃ l1 e l2,
      [Event.startClick none, Event.result 100000 "control"] = l1 ++ e :: l2 ∧
      isAcceptedActivation
        (run initState l1).1 e :=
  (activated_only_via_accepted_idle_activation
    [Event.startClick none, Event.result 100000 "control"]
    (Or.inl (by decide))).1

/-- C1: starting from IDLE, the cooldown-gated activation succeeds
(transitions to ACTIVATED and commits `lastActivationTime = now`) iff
`now - lastActivationTime ≥ 5000 ms`; on cooldown failure the state is
completely unchanged; and for `t1 < t2` with `t2 - t1 < 5000 ms`, a
successful activation at `t1` forces the activation at `t2` to fail with
no state change. -/
theorem activate_cooldown_gate (src : String) (now : Int) (s : AppState)
    (hIdle : s.currentState = STATE.IDLE) :
    (((activate src now s).1.currentState = STATE.ACTIVATED ∧
      (activate src now s).1.lastActivationTime = now) ↔
      ACTIVATION_COOLDOWN ≤ now - s.lastActivationTime) ∧
    (now - s.lastActivationTime < ACTIVATION_COOLDOWN → (activate src now s).1 = s) ∧
    (∀ t2 src2, now < t2 → t2 - now < ACTIVATION_COOLDOWN →
      (activate src now s).1.currentState = STATE.ACTIVATED →
      (activate src2 t2 (activate src now s).1).1 = (activate src now s).1) := by
  by_cases hc : now - s.lastActivationTime < ACTIVATION_COOLDOWN
  · have heq : (activate src now s).1 = s := by
      rw [activate_fst, if_pos hc]
    refine ⟨?_, fun _ => heq, ?_⟩
    · constructor
      · intro hsucc
        rw [heq, hIdle] at hsucc
        exact absurd hsucc.1 (by decide)
      · intro hge
        exact absurd hc (not_lt.mpr hge)
    · intro t2 src2 _ _ hact
      rw [heq, hIdle] at hact
      exact absurd hact (by decide)
  · have hni : ¬ s.currentState ≠ STATE.IDLE := by simp [hIdle]
    have heq : (activate src now s).1 =
        { s with
            lastActivationTime := now
            currentState := STATE.ACTIVATED
            recognitionPaused := true
            speakQueueCount := s.speakQueueCount + 1
            pendingAutoAdvance := s.pendingAutoAdvance + 1 } := by
      rw [activate_fst, if_neg hc, if_neg hni]
    refine ⟨?_, fun h' => absurd h' hc, ?_⟩
    · constructor
      · intro _
        exact not_lt.mp hc
      · intro _
        rw [heq]
        exact ⟨rfl, rfl⟩
    · intro t2 src2 _ hwin _
      rw [heq]
      have hblock : t2 - ({ s with
          lastActivationTime := now
          currentState := STATE.ACTIVATED
          recognitionPaused := true
          speakQueueCount := s.speakQueueCount + 1
          pendingAutoAdvance := s.pendingAutoAdvance + 1 } : AppState).lastActivationTime <
          ACTIVATION_COOLDOWN := by
        simpa using hwin
      rw [activate_fst, if_pos hblock]

/-- Witness for C1: from IDLE with `lastActivationTime = 0`, activation at
t=6000 succeeds, and a second activation at t=9000 (within the 5-second
cooldown window) leaves the state unchanged. -/
theorem activate_cooldown_gate_witness :
    (activate "voice" 6000 idleActiveState).1.currentState = STATE.ACTIVATED ∧
    (activate "palm" 9000 (activate "voice" 6000 idleActiveState).1).1 =
      (activate "voice" 6000 idleActiveState).1 := by
  have h := activate_cooldown_gate "voice" 6000 idleActiveState rfl
  have hsucc := h.1.mpr (by decide)
  exact ⟨hsucc.1, h.2.2 9000 "palm" (by decide) (by decide) hsucc.1⟩

/-- C10: the `source` argument of `activate` ("voice" vs "palm" vs anything
else) never influences the resulting state — activation outcome,
`currentState` and `lastActivationTime` included — nor any emitted action
other than diagnostic `log` text. -/
theorem activate_source_invariance (s : AppState) (now : Int) (src1 src2 : String) :
    (activate src1 now s).1 = (activate src2 now s).1 ∧
    ((activate src1 now s).2.filter fun a => ! isLogAction a) =
      ((activate src2 now s).2.filter fun a => ! isLogAction a) := by
  unfold activate transitionTo speak
  split_ifs <;> simp [isLogAction]

/-- C5: while the recognition-paused flag is set, an arbitrary sequence of
recognition results is discarded wholesale — no state change at all and no
action (in particular no router call and no activation) is produced. -/
theorem paused_discards_all_results (s : AppState) (h : s.recognitionPaused = true)
    (rs : List (Int × String)) :
    run s (rs.map fun p => Event.result p.1 p.2) = (s, []) := by
  induction rs with
  | nil => rfl
  | cons r rest ih =>
    have hstep : step s (Event.result r.1 r.2) = (s, []) := by
      simp [step, onresult, h]
    simp only [List.map_cons, run, hstep]
    simp [ih]

/-- Witness for C5: a paused IDLE system ignores both a wake-word result
and a command-like result. -/
theorem paused_discards_all_results_witness :
    run pausedIdleState
      [Event.result 100000 "control", Event.result 100100 "open music"] =
      (pausedIdleState, []) := by
  have h := paused_discards_all_results pausedIdleState rfl
    [(100000, "control"), (100100, "open music")]
  simpa using h

/-- C8: an utterance received in LISTENING_FOR_COMMAND (while not paused)
transitions the machine back to IDLE and invokes the command router exactly
once with the lower-cased trimmed utterance text; in the synchronous action
sequence the state change strictly precedes the router invocation. -/
theorem listening_command_roundtrip (s : AppState) (now : Int) (transcript : String)
    (hL : s.currentState = STATE.LISTENING_FOR_COMMAND)
    (hp : s.recognitionPaused = false) :
    step s (Event.result now transcript) =
      ({ s with currentState := STATE.IDLE },
       [Action.log ("Heard: \"" ++ jsTrim (jsToLowerCase transcript) ++ "\""),
        Action.setState STATE.IDLE,
        Action.routerCall (jsTrim (jsToLowerCase transcript))]) := by
  simp [step, onresult, transitionTo, hp, hL]

/-- Witness for C8: delivering "open music" in LISTENING_FOR_COMMAND
produces the IDLE transition followed by exactly one router call with text
"open music". -/
theorem listening_command_roundtrip_witness :
    step listeningState (Event.result 200000 "open music") =
      ({ listeningState with currentState := STATE.IDLE },
       [Action.log "Heard: \"open music\"", Action.setState STATE.IDLE,
        Action.routerCall "open music"]) := by
  have h := listening_command_roundtrip listeningState 200000 "open music" rfl rfl
  rw [h]
  decide

/-- C9: clicking the start button while the machine is not UNINITIALIZED
returns immediately: no state change and no action (no detector wiring, no
greeting). -/
theorem start_idempotent_when_started (s : AppState) (nameInput : Option String)
    (h : s.currentState ≠ STATE.UNINITIALIZED) :
    step s (Event.startClick nameInput) = (s, []) := by
  simp only [step, startClickHandler, if_pos h]

/-- Witness for C9: a second start click on a started (IDLE) system does
nothing. -/
theorem start_idempotent_when_started_witness :
    step idleActiveState (Event.startClick (some "Ada")) = (idleActiveState, []) :=
  start_idempotent_when_started idleActiveState (some "Ada") (by decide)

/-- C3 (code divergence): while armed with a partial stable count, a frame
with motion 4000 > T_motion leaves the count untouched (the armed
big-motion reset branch of app.js line 233 is shadowed by the outer
`motionLevel > MOTION_THRESHOLD` branch of line 203); consequently on the
claimed sequence [4000], [50]x10, [4000], [50]x20 the single
confirmed-gesture event fires on the 10th stable frame after the second
burst (frame index 21), not the 20th. -/
theorem gesture_big_motion_keeps_partial_count :
    (step { gestureIdleState with palmDetectionActive := true, stableFrameCount := 10 }
        (Event.frame 100000 4000)).1.stableFrameCount = 10 ∧
    (run gestureIdleState (c3Frames.take 12)).1.stableFrameCount = 10 ∧
    (run gestureIdleState (c3Frames.take 12)).1.palmDetectionActive = true ∧
    (run gestureIdleState c3Frames).2.count (Action.log "✓ Palm activated!") = 1 ∧
    (run gestureIdleState (c3Frames.take 22)).2.count (Action.log "✓ Palm activated!") = 1 ∧
    (run gestureIdleState (c3Frames.take 21)).2.count (Action.log "✓ Palm activated!") = 0 := by
  decide

/-- C4 (code divergence): a `not-allowed` recognition error does mark the
session inactive, leaves the activation state unchanged, and schedules no
restart from the error handler itself — but the session-end callback that
follows it sees a non-UNINITIALIZED state and an inactive session, so it
schedules the 100 ms restart timer whose body calls
`recognition.start()`: an automatic restart is attempted. -/
theorem notallowed_error_end_still_restarts :
    (step idleActiveState (Event.recError "not-allowed")).1.isRecognitionActive = false ∧
    (step idleActiveState (Event.recError "not-allowed")).1.currentState = STATE.IDLE ∧
    (step idleActiveState (Event.recError "not-allowed")).2.count Action.scheduleRestart = 0 ∧
    (run idleActiveState
        [Event.recError "not-allowed", Event.recEnded, Event.restartTimer]).2.count
      Action.recStart = 1 ∧
    (run idleActiveState
        [Event.recError "not-allowed", Event.recEnded, Event.restartTimer]).1.currentState =
      STATE.IDLE := by
  decide

/-- C7 (code divergence): the 3-second idle-reset timer tests the
`motionLevel` captured at scheduling time, not at fire time; after one
near-zero frame schedules the timer, renewed big motion (frames with
motion 4000) does not prevent the disarm — when the timer fires the
detector is disarmed and the stable count reset anyway. -/
theorem gesture_reset_fires_despite_renewed_motion :
    (run gestureIdleState (c7Events.take 5)).1.palmDetectionActive = true ∧
    (run gestureIdleState c7Events).1.palmDetectionActive = false ∧
    (run gestureIdleState c7Events).1.stableFrameCount = 0 := by
  decide

/-- C6 counterexample: with two overlapping `speak` calls whose utterances
complete at t=2000 and t=4000, the paused flag is already false at t=5000,
strictly before lastCompletion + GRACE_PERIOD = 7000 — the earlier
completion's independent 3-second timer unmutes first, so the last
completion does not govern the unmute time as the claim states. -/
theorem speak_unmute_not_governed_by_last_completion :
    (5000 : Int) < 4000 + GRACE_PERIOD ∧
    (speakTimelineRun ⟨false, []⟩ c6Events).recognitionPaused = false := by
  decide

/-- C6 amended: `speak(text)` sets `recognitionPaused := true` synchronously
in the same step that dispatches the utterance, and each completion or
output failure schedules `recognitionPaused := false` exactly
GRACE_PERIOD = 3 s later; but the grace-period timers are independent (not
restartable): whenever any scheduled unpause timer has come due, the flag
is cleared, so with overlapping speak calls the earliest completion + 3 s
governs the unmute time. -/
theorem speak_grace_period_behavior :
    (∀ (s : AppState) (text : String),
      speak text s =
        ({ s with recognitionPaused := true, speakQueueCount := s.speakQueueCount + 1 },
         [Action.speakOut text])) ∧
    (∀ (s : SpeakTimeline) (text : String),
      speakTimelineStep s (SpeakEvent.speakCall text) = { s with recognitionPaused := true }) ∧
    (∀ (s : SpeakTimeline) (now : Int),
      speakTimelineStep s (SpeakEvent.utterEnd now) =
        { s with unpauseTimers := s.unpauseTimers ++ [now + GRACE_PERIOD] }) ∧
    (∀ (s : SpeakTimeline) (now : Int),
      speakTimelineStep s (SpeakEvent.utterError now) =
        { s with unpauseTimers := s.unpauseTimers ++ [now + GRACE_PERIOD] }) ∧
    (∀ (s : SpeakTimeline) (now : Int),
      (s.unpauseTimers.any fun t => decide (t ≤ now)) = true →
        (speakTimelineStep s (SpeakEvent.timersDue now)).recognitionPaused = false) := by
  refine ⟨fun s text => rfl, fun s text => rfl, fun s now => rfl, fun s now => rfl,
    fun s now h => ?_⟩
  simp only [speakTimelineStep, if_pos h]

/-- Witness for C6 (amended): a due timer at t=5000 (scheduled for t=3000)
clears the paused flag. -/
theorem speak_grace_period_behavior_witness :
    (speakTimelineStep ⟨true, [(3000 : Int)]⟩ (SpeakEvent.timersDue 5000)).recognitionPaused =
      false :=
  speak_grace_period_behavior.2.2.2.2 ⟨true, [3000]⟩ 5000 (by decide)

end ControlAssistant
